import Mathlib

/-!
Verification of the response cache and API usage tracker of `openai_test`
(`src/openai_test/utils/cache.py`) and the failure paths of
`OpenAIClient.generate_text` (`src/openai_test/api/openai_client.py`).

Modelling conventions:
* Python strings are `List Char`.
* Timestamps (`time.time()`) and TTLs are `Int`; the code only compares
  differences of timestamps against the TTL, so integer arithmetic captures it.
* `temperature` and `max_tokens` enter the cache key only through their
  f-string rendering (`f"{temperature}"`, `f"{max_tokens}"`), so they are
  modelled by their rendered text.
* `hashlib.md5(...).hexdigest()` is an external library function; it is
  modelled as an arbitrary function `h : List Char → List Char` applied to the
  request string that the repository builds.  All cache operations are
  parameterised by `h`.
* The cache directory is an association list from file name (cache key) to
  file content; a file is either a parsable JSON record or `corrupt`
  (unreadable / unparsable, making `json.load` raise).
-/

namespace OpenAITest

/-! ## ResponseCache: the cache key (cache.py lines 165-184) -/

/-- `request_str = f"{model}|{system_prompt}|{user_prompt}|{temperature}|{max_tokens}"`
(cache.py line 180). -/
def requestStr (model system_prompt user_prompt temperature max_tokens : List Char) :
    List Char :=
  model ++ '|' :: (system_prompt ++ '|' :: (user_prompt ++ '|' ::
    (temperature ++ '|' :: max_tokens)))

/-- `ResponseCache._get_cache_key`: md5 hexdigest (modelled by `h`) of the
request string (cache.py lines 180-184). -/
def getCacheKey (h : List Char → List Char)
    (model system_prompt user_prompt temperature max_tokens : List Char) : List Char :=
  h (requestStr model system_prompt user_prompt temperature max_tokens)

/-- Splitting on a separator character absent from the leading fields is
unambiguous. -/
theorem append_sep_inj {a b x y : List Char}
    (ha : '|' ∉ a) (hb : '|' ∉ b)
    (h : a ++ '|' :: x = b ++ '|' :: y) : a = b ∧ x = y := by
  induction a generalizing b with
  | nil =>
    cases b with
    | nil =>
      simp only [List.nil_append, List.cons.injEq] at h
      exact ⟨rfl, h.2⟩
    | cons c bs =>
      simp only [List.nil_append, List.cons_append, List.cons.injEq] at h
      exact absurd (h.1 ▸ List.mem_cons_self c bs) hb
  | cons c as ih =>
    cases b with
    | nil =>
      simp only [List.cons_append, List.nil_append, List.cons.injEq] at h
      exact absurd (h.1 ▸ List.mem_cons_self c as) ha
    | cons d bs =>
      simp only [List.cons_append, List.cons.injEq] at h
      have ha' : '|' ∉ as := fun hm => ha (List.mem_cons_of_mem c hm)
      have hb' : '|' ∉ bs := fun hm => hb (List.mem_cons_of_mem d hm)
      obtain ⟨rfl, h2⟩ := h
      obtain ⟨h3, h4⟩ := ih ha' hb' h2
      exact ⟨by rw [h3], h4⟩

/-! ## ResponseCache: on-disk store (one JSON file per key) -/

/-- Contents of one cache file as written by `ResponseCache.set`
(cache.py lines 254-262).  `timestamp` and `response` are `Option` because
`get` reads them with `cache_data.get("timestamp", 0)` /
`cache_data.get("response")`, tolerating their absence. -/
structure CacheData where
  timestamp : Option Int
  model : List Char
  system_prompt : List Char
  user_prompt : List Char
  temperature : List Char
  max_tokens : List Char
  response : Option (List Char)
deriving DecidableEq

/-- One file in the cache directory: a parsable JSON record, or a file on
which `json.load` raises (caught and treated as a miss / skipped). -/
inductive CacheFile where
  | valid (data : CacheData)
  | corrupt
deriving DecidableEq

/-- The cache directory: file name (cache key) ↦ file content. -/
abbrev CacheStore := List (List Char × CacheFile)

/-- `os.path.exists` + `open(cache_file)`: find the file with the given name. -/
def lookupFile (k : List Char) : CacheStore → Option CacheFile
  | [] => none
  | (k', f) :: rest => if k' = k then some f else lookupFile k rest

/-- `open(cache_file, "w")` + `json.dump`: overwrite the file with the given
name, creating it if absent. -/
def writeFile (k : List Char) (f : CacheFile) : CacheStore → CacheStore
  | [] => [(k, f)]
  | (k', g) :: rest => if k' = k then (k, f) :: rest else (k', g) :: writeFile k f rest

/-- `ResponseCache.get` (cache.py lines 198-236).  Returns the result
(`None`/text) together with the cache directory afterwards: the source only
reads, so the directory is returned unchanged on every path. -/
def ResponseCache.get (h : List Char → List Char) (ttl : Int) (now : Int)
    (model system_prompt user_prompt temperature max_tokens : List Char)
    (store : CacheStore) : Option (List Char) × CacheStore :=
  let key := getCacheKey h model system_prompt user_prompt temperature max_tokens
  match lookupFile key store with
  | none => (none, store)
  | some CacheFile.corrupt => (none, store)
  | some (CacheFile.valid d) =>
    let cache_time := d.timestamp.getD 0
    if now - cache_time > ttl then (none, store)
    else (d.response, store)

/-- `ResponseCache.set` (cache.py lines 238-270): writes/overwrites the entry
for the key with the current timestamp and the full payload. -/
def ResponseCache.set (h : List Char → List Char) (now : Int)
    (model system_prompt user_prompt temperature max_tokens response : List Char)
    (store : CacheStore) : CacheStore :=
  let key := getCacheKey h model system_prompt user_prompt temperature max_tokens
  writeFile key
    (CacheFile.valid
      ⟨some now, model, system_prompt, user_prompt, temperature, max_tokens,
        some response⟩) store

/-- The per-file test of `ResponseCache.clear`: a parsable file is removed
when `current_time - cache_data.get("timestamp", 0) > max_age`; an unparsable
file raises inside the per-file `try`, is caught, and is never removed. -/
def fileExpired (max_age now : Int) : CacheFile → Bool
  | CacheFile.valid d => now - d.timestamp.getD 0 > max_age
  | CacheFile.corrupt => false

/-- The loop of `ResponseCache.clear` over `Path(cache_dir).glob("*.json")`
(cache.py lines 290-302), returning the number removed and the directory
afterwards. -/
def clearFiles (max_age now : Int) : CacheStore → Nat × CacheStore
  | [] => (0, [])
  | (k, f) :: rest =>
    let r := clearFiles max_age now rest
    if fileExpired max_age now f then (r.1 + 1, r.2) else (r.1, (k, f) :: r.2)

/-- `ResponseCache.clear` (cache.py lines 272-309): `max_age` defaults to the
instance TTL. -/
def ResponseCache.clear (ttl : Int) (max_age : Option Int) (now : Int)
    (store : CacheStore) : Nat × CacheStore :=
  clearFiles (max_age.getD ttl) now store

/-! ## APIUsageTracker (cache.py lines 14-134) -/

/-- Per-model per-day statistics (`usage_data["requests_by_date"][today]["models"][model]`). -/
structure ModelStats where
  requests : Nat
  tokens : Nat
deriving DecidableEq

/-- One date bucket (`usage_data["requests_by_date"][today]`). -/
structure DateBucket where
  requests : Nat
  tokens : Nat
  successful_requests : Nat
  failed_requests : Nat
  models : List (List Char × ModelStats)
deriving DecidableEq

/-- The whole persisted usage store (`usage.json`). -/
structure UsageData where
  total_requests : Nat
  total_tokens : Nat
  requests_by_date : List (List Char × DateBucket)
  last_updated : List Char
deriving DecidableEq

/-- Python dict lookup `d[k]` (as `Option`). -/
def lookupAssoc {α β : Type} [DecidableEq α] (k : α) : List (α × β) → Option β
  | [] => none
  | (k', v) :: rest => if k' = k then some v else lookupAssoc k rest

/-- The `if k not in d: d[k] = dflt` followed by in-place mutation `f` of
`d[k]` used throughout `track_request`. -/
def updateAssoc {α β : Type} [DecidableEq α] (k : α) (dflt : β) (f : β → β) :
    List (α × β) → List (α × β)
  | [] => [(k, f dflt)]
  | (k', v) :: rest =>
    if k' = k then (k', f v) :: rest else (k', v) :: updateAssoc k dflt f rest

/-- The fresh date bucket created at cache.py lines 81-87. -/
def freshBucket : DateBucket := ⟨0, 0, 0, 0, []⟩

/-- The fresh per-model record created at cache.py lines 99-102. -/
def freshModelStats : ModelStats := ⟨0, 0⟩

/-- The mutation of the per-model record (cache.py lines 104-105). -/
def updModelStats (total_tokens : Nat) (st : ModelStats) : ModelStats :=
  ⟨st.requests + 1, st.tokens + total_tokens⟩

/-- The mutation of today's date bucket (cache.py lines 89-105). -/
def updBucket (model : List Char) (total_tokens : Nat) (success : Bool)
    (b : DateBucket) : DateBucket :=
  { requests := b.requests + 1
    tokens := b.tokens + total_tokens
    successful_requests :=
      if success then b.successful_requests + 1 else b.successful_requests
    failed_requests :=
      if success then b.failed_requests else b.failed_requests + 1
    models := updateAssoc model freshModelStats (updModelStats total_tokens) b.models }

/-- The successful body of `APIUsageTracker.track_request`
(cache.py lines 63-112), as a function of the loaded store.  `today` is
`datetime.now().strftime("%Y-%m-%d")` and `nowIso` is
`datetime.now().isoformat()`, both supplied by the ambient clock. -/
def track_request (model : List Char) (prompt_tokens : Nat)
    (completion_tokens : Option Nat) (success : Bool)
    (today nowIso : List Char) (d : UsageData) : UsageData :=
  let total_tokens := prompt_tokens + completion_tokens.getD 0
  { total_requests := d.total_requests + 1
    total_tokens := d.total_tokens + total_tokens
    requests_by_date :=
      updateAssoc today freshBucket (updBucket model total_tokens success)
        d.requests_by_date
    last_updated := nowIso }

/-- The store `_ensure_usage_file` creates on first use (cache.py lines 38-51). -/
def initialUsageData (createdAt : List Char) : UsageData := ⟨0, 0, [], createdAt⟩

/-- The usage file as the tracker sees it: `content = none` models a file that
`open`/`json.load` raises on; `writable = false` models a file whose rewrite
raises. -/
structure TrackerFile where
  content : Option UsageData
  writable : Bool
deriving DecidableEq

/-- `APIUsageTracker.track_request` including its `try`/`except` (cache.py
lines 63-117): a read, parse or write failure is caught, logged and the call
returns normally with the file unchanged. -/
def trackRequestOnFile (model : List Char) (prompt_tokens : Nat)
    (completion_tokens : Option Nat) (success : Bool)
    (today nowIso : List Char) (tf : TrackerFile) : TrackerFile :=
  match tf.content with
  | none => tf
  | some d =>
    if tf.writable then
      { tf with
        content :=
          some (track_request model prompt_tokens completion_tokens success
            today nowIso d) }
    else tf

/-- `APIUsageTracker.get_usage_summary` (cache.py lines 119-134): the parsed
store, or `None` when reading/parsing fails. -/
def get_usage_summary (tf : TrackerFile) : Option UsageData := tf.content

/-! ## OpenAIClient.generate_text (openai_client.py lines 51-193) -/

/-- The classification of a failed generation call (the five `openai`
exception types plus the generic handler). -/
inductive ErrorKind where
  | authentication
  | rateLimit
  | connection
  | badRequest
  | apiError
  | unexpected
deriving DecidableEq

/-- A classified error from the generation call. -/
structure GenError where
  kind : ErrorKind
  msg : List Char
deriving DecidableEq

/-- A successful generation call: raw text and the reported token counts. -/
structure GenOk where
  text : List Char
  prompt_tokens : Nat
  completion_tokens : Nat
deriving DecidableEq

/-- The classification-specific text each handler prepends when re-raising
(openai_client.py lines 140, 150, 160, 170, 183, 193). -/
def errorWrapText : ErrorKind → List Char
  | ErrorKind.authentication => "Invalid API key or unauthorized access: ".data
  | ErrorKind.rateLimit =>
    "OpenAI API rate limit exceeded. Please try again later: ".data
  | ErrorKind.connection =>
    "Failed to connect to OpenAI API. Please check your internet connection: ".data
  | ErrorKind.badRequest => "Invalid request parameters: ".data
  | ErrorKind.apiError => "OpenAI API returned an error: ".data
  | ErrorKind.unexpected => "An unexpected error occurred: ".data

/-- The error each handler re-raises: same class, message wrapped with the
classification-specific text (`f"...: {str(e)}"`). -/
def decorateError (e : GenError) : GenError :=
  ⟨e.kind, errorWrapText e.kind ++ e.msg⟩

/-- Python `str.strip()`. -/
def stripChars (s : List Char) : List Char :=
  ((s.dropWhile Char.isWhitespace).reverse.dropWhile Char.isWhitespace).reverse

/-- Python truthiness of `cached_response` at openai_client.py line 88:
`None` and the empty string are falsy. -/
def truthyText : Option (List Char) → Bool
  | none => false
  | some t => !t.isEmpty

/-- `OpenAIClient.generate_text` (openai_client.py lines 51-193).  The
network call is an external collaborator, supplied as `apiResult`; `h` is
the md5 model, `ttl` the cache TTL, `now`/`today`/`nowIso` the ambient
clock.  Returns the outcome together with the cache directory and usage
file afterwards. -/
def generate_text (h : List Char → List Char) (ttl : Int)
    (use_cache track_usage : Bool) (apiResult : Except GenError GenOk)
    (system_prompt user_prompt model temperature max_tokens : List Char)
    (now : Int) (today nowIso : List Char)
    (cstore : CacheStore) (tf : TrackerFile) :
    Except GenError (List Char) × CacheStore × TrackerFile :=
  let cached : Option (List Char) :=
    if use_cache then
      (ResponseCache.get h ttl now model system_prompt user_prompt temperature
        max_tokens cstore).1
    else none
  if truthyText cached then (Except.ok (cached.getD []), cstore, tf)
  else
    match apiResult with
    | Except.ok r =>
      let generated_text := stripChars r.text
      let cstore' :=
        if use_cache then
          ResponseCache.set h now model system_prompt user_prompt temperature
            max_tokens generated_text cstore
        else cstore
      let tf' :=
        if track_usage then
          trackRequestOnFile model r.prompt_tokens (some r.completion_tokens)
            true today nowIso tf
        else tf
      (Except.ok generated_text, cstore', tf')
    | Except.error e =>
      let tf' :=
        if track_usage then
          trackRequestOnFile model (system_prompt.length + user_prompt.length)
            none false today nowIso tf
        else tf
      (Except.error (decorateError e), cstore, tf')

/-! ## Helper lemmas -/

/-- Writing a file and then looking up the same name finds exactly what was
written. -/
theorem lookupFile_writeFile (k : List Char) (f : CacheFile) (s : CacheStore) :
    lookupFile k (writeFile k f s) = some f := by
  induction s with
  | nil => simp [writeFile, lookupFile]
  | cons e rest ih =>
    obtain ⟨k', g⟩ := e
    by_cases hk : k' = k
    · simp [writeFile, hk, lookupFile]
    · simp [writeFile, hk, lookupFile, ih]

/-- A found file is a member of the directory. -/
theorem lookupFile_mem {k : List Char} {f : CacheFile} {s : CacheStore}
    (h : lookupFile k s = some f) : (k, f) ∈ s := by
  induction s with
  | nil => simp [lookupFile] at h
  | cons e rest ih =>
    obtain ⟨k', g⟩ := e
    by_cases hk : k' = k
    · subst hk
      simp [lookupFile] at h
      subst h
      exact List.mem_cons_self _ _
    · simp [lookupFile, hk] at h
      exact List.mem_cons_of_mem _ (ih h)

/-- What the clearing loop computes: the count of expired parsable files and
the directory restricted to the files kept. -/
theorem clearFiles_spec (max_age now : Int) (s : CacheStore) :
    clearFiles max_age now s =
      ((s.filter fun e => fileExpired max_age now e.2).length,
        s.filter fun e => !fileExpired max_age now e.2) := by
  induction s with
  | nil => simp [clearFiles]
  | cons e rest ih =>
    obtain ⟨k, f⟩ := e
    by_cases hf : fileExpired max_age now f
    · simp [clearFiles, ih, List.filter, hf]
    · simp only [Bool.not_eq_true] at hf
      simp [clearFiles, ih, List.filter, hf]

/-! ## C1: cache-key fingerprint -/

/-- C1 (counterexample): the concatenated representation built by
`_get_cache_key` is ambiguous.  The two distinct parameter tuples
`(model = "a|b", system_prompt = "c", ...)` and
`(model = "a", system_prompt = "b|c", ...)` produce the same request string,
hence the same md5 fingerprint and the same cache entry. -/
theorem requestStr_delim_collision :
    ((['a', '|', 'b'], ['c']) ≠ ((['a'], ['b', '|', 'c']) : List Char × List Char)) ∧
    requestStr ['a', '|', 'b'] ['c'] ['u'] ['t'] ['k'] =
      requestStr ['a'] ['b', '|', 'c'] ['u'] ['t'] ['k'] ∧
    getCacheKey (fun s => s) ['a', '|', 'b'] ['c'] ['u'] ['t'] ['k'] =
      getCacheKey (fun s => s) ['a'] ['b', '|', 'c'] ['u'] ['t'] ['k'] := by
  refine ⟨by decide, ?_, ?_⟩ <;> rfl

/-- C1 (amended): the fingerprint input is deterministic in the tuple, and
provided none of the first four fields contains the `|` delimiter, two tuples
produce the same request string exactly when they are identical; equal request
strings give equal cache keys for any hash. -/
theorem cache_key_unambiguous_without_delimiter (h : List Char → List Char)
    (m1 s1 u1 t1 k1 m2 s2 u2 t2 k2 : List Char)
    (hm1 : '|' ∉ m1) (hm2 : '|' ∉ m2) (hs1 : '|' ∉ s1) (hs2 : '|' ∉ s2)
    (hu1 : '|' ∉ u1) (hu2 : '|' ∉ u2) (ht1 : '|' ∉ t1) (ht2 : '|' ∉ t2) :
    ((m1, s1, u1, t1, k1) = (m2, s2, u2, t2, k2) ↔
      requestStr m1 s1 u1 t1 k1 = requestStr m2 s2 u2 t2 k2) ∧
    (requestStr m1 s1 u1 t1 k1 = requestStr m2 s2 u2 t2 k2 →
      getCacheKey h m1 s1 u1 t1 k1 = getCacheKey h m2 s2 u2 t2 k2) := by
  constructor
  · constructor
    · intro he
      simp only [Prod.mk.injEq] at he
      obtain ⟨rfl, rfl, rfl, rfl, rfl⟩ := he
      rfl
    · intro he
      unfold requestStr at he
      obtain ⟨rfl, h2⟩ := append_sep_inj hm1 hm2 he
      obtain ⟨rfl, h3⟩ := append_sep_inj hs1 hs2 h2
      obtain ⟨rfl, h4⟩ := append_sep_inj hu1 hu2 h3
      obtain ⟨rfl, rfl⟩ := append_sep_inj ht1 ht2 h4
      rfl
  · intro he
    unfold getCacheKey
    rw [he]

/-- Witness for C1's amended theorem at concrete delimiter-free inputs. -/
theorem cache_key_unambiguous_without_delimiter_witness :
    (((['a'], ['b'], ['c'], ['d'], ['e']) =
      ((['q'], ['b'], ['c'], ['d'], ['e']) :
        List Char × List Char × List Char × List Char × List Char)) ↔
      requestStr ['a'] ['b'] ['c'] ['d'] ['e'] =
        requestStr ['q'] ['b'] ['c'] ['d'] ['e']) ∧
    (requestStr ['a'] ['b'] ['c'] ['d'] ['e'] =
        requestStr ['q'] ['b'] ['c'] ['d'] ['e'] →
      getCacheKey (fun s => s) ['a'] ['b'] ['c'] ['d'] ['e'] =
        getCacheKey (fun s => s) ['q'] ['b'] ['c'] ['d'] ['e']) :=
  cache_key_unambiguous_without_delimiter (fun s => s)
    ['a'] ['b'] ['c'] ['d'] ['e'] ['q'] ['b'] ['c'] ['d'] ['e']
    (by decide) (by decide) (by decide) (by decide) (by decide) (by decide)
    (by decide) (by decide)

/-! ## C2: set/get round-trip within TTL -/

/-- C2: a `set` followed by a `get` with the same parameter tuple, at any
time within `ttl` seconds of the `set`, returns exactly the text passed to
`set`. -/
theorem set_then_get_roundtrip (h : List Char → List Char) (ttl now now' : Int)
    (model sp up temp mk resp : List Char) (store : CacheStore)
    (hfresh : now' - now ≤ ttl) :
    (ResponseCache.get h ttl now' model sp up temp mk
      (ResponseCache.set h now model sp up temp mk resp store)).1 = some resp := by
  unfold ResponseCache.get ResponseCache.set
  simp only [lookupFile_writeFile, Option.getD_some]
  rw [if_neg (by omega)]

/-- Witness for C2 at a concrete instant and tuple. -/
theorem set_then_get_roundtrip_witness :
    (ResponseCache.get (fun s => s) 86400 105 ['m'] ['s'] ['u'] ['t'] ['k']
      (ResponseCache.set (fun s => s) 100 ['m'] ['s'] ['u'] ['t'] ['k']
        ['p', 'o', 'e', 'm'] [])).1 = some ['p', 'o', 'e', 'm'] :=
  set_then_get_roundtrip (fun s => s) 86400 100 105
    ['m'] ['s'] ['u'] ['t'] ['k'] ['p', 'o', 'e', 'm'] [] (by omega)

/-! ## C3: TTL expiry boundaries -/

/-- C3: an entry written at `tstamp` is absent from `get` whenever
`now - tstamp > ttl`, is returned at `tstamp + ttl - 1`, and — the comparison
being strict — is still returned at age exactly `ttl`. -/
theorem get_expiry_boundaries (h : List Char → List Char)
    (ttl tstamp now : Int) (model sp up temp mk resp : List Char)
    (store : CacheStore) (hexp : now - tstamp > ttl) :
    (ResponseCache.get h ttl now model sp up temp mk
      (ResponseCache.set h tstamp model sp up temp mk resp store)).1 = none ∧
    (ResponseCache.get h ttl (tstamp + ttl - 1) model sp up temp mk
      (ResponseCache.set h tstamp model sp up temp mk resp store)).1 = some resp ∧
    (ResponseCache.get h ttl (tstamp + ttl) model sp up temp mk
      (ResponseCache.set h tstamp model sp up temp mk resp store)).1 = some resp := by
  unfold ResponseCache.get ResponseCache.set
  simp only [lookupFile_writeFile, Option.getD_some]
  refine ⟨?_, ?_, ?_⟩
  · rw [if_pos (by omega)]
  · rw [if_neg (by omega)]
  · rw [if_neg (by omega)]

/-- Witness for C3: `ttl = 86400`, written at `1000`, queried at
`1000 + 86401`, `1000 + 86399` and `1000 + 86400`. -/
theorem get_expiry_boundaries_witness :
    (ResponseCache.get (fun s => s) 86400 87401 ['m'] ['s'] ['u'] ['t'] ['k']
      (ResponseCache.set (fun s => s) 1000 ['m'] ['s'] ['u'] ['t'] ['k']
        ['x'] [])).1 = none ∧
    (ResponseCache.get (fun s => s) 86400 (1000 + 86400 - 1) ['m'] ['s'] ['u']
      ['t'] ['k']
      (ResponseCache.set (fun s => s) 1000 ['m'] ['s'] ['u'] ['t'] ['k']
        ['x'] [])).1 = some ['x'] ∧
    (ResponseCache.get (fun s => s) 86400 (1000 + 86400) ['m'] ['s'] ['u']
      ['t'] ['k']
      (ResponseCache.set (fun s => s) 1000 ['m'] ['s'] ['u'] ['t'] ['k']
        ['x'] [])).1 = some ['x'] :=
  get_expiry_boundaries (fun s => s) 86400 1000 87401
    ['m'] ['s'] ['u'] ['t'] ['k'] ['x'] [] (by omega)

/-! ## C4: pruning removes exactly the expired entries -/

/-- C4: `clear` (with `max_age` absent, hence the instance TTL) removes
exactly the entries whose age exceeds the TTL and returns that count; a
second `clear` immediately after removes nothing and returns 0; `clear` on an
empty cache returns 0; and passing `max_age = ttl` explicitly is the same as
passing nothing. -/
theorem clear_removes_exactly_expired (ttl now : Int) (store : CacheStore) :
    (ResponseCache.clear ttl none now store).1 =
      (store.filter fun e => fileExpired ttl now e.2).length ∧
    (ResponseCache.clear ttl none now store).2 =
      store.filter (fun e => !fileExpired ttl now e.2) ∧
    ResponseCache.clear ttl none now ((ResponseCache.clear ttl none now store).2) =
      (0, (ResponseCache.clear ttl none now store).2) ∧
    ResponseCache.clear ttl none now ([] : CacheStore) = (0, []) ∧
    ResponseCache.clear ttl none now store =
      ResponseCache.clear ttl (some ttl) now store := by
  have hspec : ∀ s : CacheStore, ResponseCache.clear ttl none now s =
      ((s.filter fun e => fileExpired ttl now e.2).length,
        s.filter fun e => !fileExpired ttl now e.2) := by
    intro s
    unfold ResponseCache.clear
    simpa using clearFiles_spec ttl now s
  refine ⟨?_, ?_, ?_, ?_, ?_⟩
  · rw [hspec]
  · rw [hspec]
  · rw [hspec store, hspec]
    rw [List.filter_filter, List.filter_filter]
    simp
  · rw [hspec]
    rfl
  · rfl

/-! ## C9: get is read-only; expired entries stay until clear -/

/-- C9: `get` never modifies the cache directory: every path returns the
directory unchanged.  In particular an entry whose age exceeds the TTL is not
returned but stays in place, and the next `clear` is what removes it. -/
theorem get_leaves_store_unchanged (h : List Char → List Char) (ttl now : Int)
    (model sp up temp mk : List Char) (store : CacheStore) (d : CacheData)
    (hstored : lookupFile (getCacheKey h model sp up temp mk) store =
      some (CacheFile.valid d))
    (hexp : now - d.timestamp.getD 0 > ttl) :
    (∀ (st : CacheStore) (m2 s2 u2 t2 k2 : List Char) (n2 tl2 : Int),
      (ResponseCache.get h tl2 n2 m2 s2 u2 t2 k2 st).2 = st) ∧
    (ResponseCache.get h ttl now model sp up temp mk store).1 = none ∧
    (getCacheKey h model sp up temp mk, CacheFile.valid d) ∈ store ∧
    (getCacheKey h model sp up temp mk, CacheFile.valid d) ∉
      (ResponseCache.clear ttl none now store).2 := by
  refine ⟨?_, ?_, lookupFile_mem hstored, ?_⟩
  · intro st m2 s2 u2 t2 k2 n2 tl2
    unfold ResponseCache.get
    rcases hl : lookupFile (getCacheKey h m2 s2 u2 t2 k2) st with _ | f
    · simp [hl]
    · cases f with
      | corrupt => simp [hl]
      | valid dd =>
        simp only [hl]
        split <;> rfl
  · unfold ResponseCache.get
    simp only [hstored]
    rw [if_pos hexp]
  · unfold ResponseCache.clear
    rw [clearFiles_spec]
    intro hmem
    have hkept := (List.mem_filter.mp hmem).2
    simp only [fileExpired, Bool.not_eq_true', decide_eq_false_iff_not] at hkept
    exact hkept hexp

/-- Witness for C9: a one-entry directory holding an entry of age 90 with
TTL 10. -/
theorem get_leaves_store_unchanged_witness :
    (∀ (st : CacheStore) (m2 s2 u2 t2 k2 : List Char) (n2 tl2 : Int),
      (ResponseCache.get (fun s => s) tl2 n2 m2 s2 u2 t2 k2 st).2 = st) ∧
    (ResponseCache.get (fun s => s) 10 100 ['m'] ['s'] ['u'] ['t'] ['k']
      [(getCacheKey (fun s => s) ['m'] ['s'] ['u'] ['t'] ['k'],
        CacheFile.valid ⟨some 10, ['m'], ['s'], ['u'], ['t'], ['k'],
          some ['x']⟩)]).1 = none ∧
    (getCacheKey (fun s => s) ['m'] ['s'] ['u'] ['t'] ['k'],
      CacheFile.valid ⟨some 10, ['m'], ['s'], ['u'], ['t'], ['k'], some ['x']⟩) ∈
      [(getCacheKey (fun s => s) ['m'] ['s'] ['u'] ['t'] ['k'],
        CacheFile.valid ⟨some 10, ['m'], ['s'], ['u'], ['t'], ['k'],
          some ['x']⟩)] ∧
    (getCacheKey (fun s => s) ['m'] ['s'] ['u'] ['t'] ['k'],
      CacheFile.valid ⟨some 10, ['m'], ['s'], ['u'], ['t'], ['k'], some ['x']⟩) ∉
      (ResponseCache.clear 10 none 100
        [(getCacheKey (fun s => s) ['m'] ['s'] ['u'] ['t'] ['k'],
          CacheFile.valid ⟨some 10, ['m'], ['s'], ['u'], ['t'], ['k'],
            some ['x']⟩)]).2 :=
  get_leaves_store_unchanged (fun s => s) 10 100 ['m'] ['s'] ['u'] ['t'] ['k']
    [(getCacheKey (fun s => s) ['m'] ['s'] ['u'] ['t'] ['k'],
      CacheFile.valid ⟨some 10, ['m'], ['s'], ['u'], ['t'], ['k'], some ['x']⟩)]
    ⟨some 10, ['m'], ['s'], ['u'], ['t'], ['k'], some ['x']⟩
    (by simp [lookupFile]) (by simp [Option.getD])

/-! ## C10: clear never removes unparsable entries -/

/-- C10: a cache file whose record does not parse stays in place under
`clear` and is never included in the returned count: only parsable entries
whose timestamp age exceeds `max_age` are counted and removed. -/
theorem clear_skips_unparsable_entries (ttl now : Int) (max_age : Option Int)
    (store : CacheStore) (k : List Char)
    (hc : (k, CacheFile.corrupt) ∈ store) :
    (k, CacheFile.corrupt) ∈ (ResponseCache.clear ttl max_age now store).2 ∧
    (ResponseCache.clear ttl max_age now store).1 =
      (store.filter fun e => fileExpired (max_age.getD ttl) now e.2).length := by
  unfold ResponseCache.clear
  rw [clearFiles_spec]
  refine ⟨?_, rfl⟩
  exact List.mem_filter.mpr ⟨hc, by simp [fileExpired]⟩

/-- Witness for C10: a directory holding one unparsable file next to one
expired parsable file; `clear` counts 1 and keeps the unparsable file. -/
theorem clear_skips_unparsable_entries_witness :
    (['c'], CacheFile.corrupt) ∈
      (ResponseCache.clear 10 none 100
        [(['c'], CacheFile.corrupt),
          (['v'], CacheFile.valid ⟨some 0, ['m'], ['s'], ['u'], ['t'], ['k'],
            some ['x']⟩)]).2 ∧
    (ResponseCache.clear 10 none 100
      [(['c'], CacheFile.corrupt),
        (['v'], CacheFile.valid ⟨some 0, ['m'], ['s'], ['u'], ['t'], ['k'],
          some ['x']⟩)]).1 =
      (([(['c'], CacheFile.corrupt),
        (['v'], CacheFile.valid ⟨some 0, ['m'], ['s'], ['u'], ['t'], ['k'],
          some ['x']⟩)] : CacheStore).filter
        fun e => fileExpired ((none : Option Int).getD 10) 100 e.2).length :=
  clear_skips_unparsable_entries 10 100 none
    [(['c'], CacheFile.corrupt),
      (['v'], CacheFile.valid ⟨some 0, ['m'], ['s'], ['u'], ['t'], ['k'],
        some ['x']⟩)]
    ['c'] (List.mem_cons_self _ _)

/-! ## C5: the usage-store invariant -/

/-- Sum of the per-model request counters of a bucket. -/
def modelsRequestsSum (ms : List (List Char × ModelStats)) : Nat :=
  (ms.map fun p => p.2.requests).sum

/-- The date-bucket invariant: successes plus failures equal requests, and
the per-model request counters sum to the bucket's request counter. -/
def bucketInv (b : DateBucket) : Prop :=
  b.successful_requests + b.failed_requests = b.requests ∧
  modelsRequestsSum b.models = b.requests

/-- The store invariant: every date bucket satisfies `bucketInv`. -/
def usageInv (d : UsageData) : Prop := ∀ p ∈ d.requests_by_date, bucketInv p.2

instance (b : DateBucket) : Decidable (bucketInv b) := by
  unfold bucketInv
  infer_instance

instance (d : UsageData) : Decidable (usageInv d) := by
  unfold usageInv
  infer_instance

/-- Updating (or creating) one model record raises the per-model request sum
by exactly one. -/
theorem modelsRequestsSum_updateAssoc (k : List Char) (tt : Nat)
    (ms : List (List Char × ModelStats)) :
    modelsRequestsSum (updateAssoc k freshModelStats (updModelStats tt) ms) =
      modelsRequestsSum ms + 1 := by
  induction ms with
  | nil => rfl
  | cons e rest ih =>
    obtain ⟨k', v⟩ := e
    by_cases hk : k' = k
    · simp [updateAssoc, hk, modelsRequestsSum, updModelStats]
      omega
    · simp only [updateAssoc, hk, if_false, modelsRequestsSum, List.map_cons,
        List.sum_cons] at ih ⊢
      omega

/-- A property holding on every value of an association list, on the default,
and preserved by the update, holds on every value after `updateAssoc`. -/
theorem updateAssoc_pred {α β : Type} [DecidableEq α] (P : β → Prop)
    (k : α) (dflt : β) (f : β → β) (l : List (α × β))
    (hl : ∀ p ∈ l, P p.2) (hd : P dflt) (hf : ∀ v, P v → P (f v)) :
    ∀ p ∈ updateAssoc k dflt f l, P p.2 := by
  induction l with
  | nil =>
    intro p hp
    simp only [updateAssoc, List.mem_singleton] at hp
    rw [hp]
    exact hf dflt hd
  | cons e rest ih =>
    obtain ⟨k', v⟩ := e
    intro p hp
    by_cases hk : k' = k
    · simp only [updateAssoc, hk, if_true, List.mem_cons] at hp
      rcases hp with hp | hp
      · rw [hp]
        exact hf v (hl (k', v) (List.mem_cons_self _ _))
      · exact hl p (List.mem_cons_of_mem _ hp)
    · simp only [updateAssoc, hk, if_false, List.mem_cons] at hp
      rcases hp with hp | hp
      · exact hl p (by simp [hp])
      · exact ih (fun q hq => hl q (List.mem_cons_of_mem _ hq)) p hp

/-- The bucket mutation of `track_request` preserves the bucket invariant. -/
theorem updBucket_inv (model : List Char) (tt : Nat) (success : Bool)
    (b : DateBucket) (hb : bucketInv b) :
    bucketInv (updBucket model tt success b) := by
  obtain ⟨h1, h2⟩ := hb
  constructor
  · cases success <;> simp [updBucket] <;> omega
  · simp only [updBucket, modelsRequestsSum_updateAssoc]
    omega

/-- C5: the fresh store satisfies the invariant, and every `track_request`
call preserves it, so every reachable usage store satisfies it. -/
theorem track_request_preserves_invariant (model : List Char) (pt : Nat)
    (ct : Option Nat) (success : Bool) (today nowIso createdAt : List Char)
    (d : UsageData) (hinv : usageInv d) :
    usageInv (initialUsageData createdAt) ∧
    usageInv (track_request model pt ct success today nowIso d) := by
  constructor
  · intro p hp
    simp [initialUsageData] at hp
  · intro p hp
    simp only [track_request] at hp
    exact updateAssoc_pred bucketInv today freshBucket
      (updBucket model (pt + ct.getD 0) success) d.requests_by_date hinv
      ⟨rfl, rfl⟩ (fun v hv => updBucket_inv model _ success v hv) p hp

/-- Witness for C5 at a concrete one-bucket store. -/
theorem track_request_preserves_invariant_witness :
    usageInv (initialUsageData ['c']) ∧
    usageInv (track_request ['g'] 5 (some 7) true ['d'] ['i']
      (track_request ['g'] 50 (some 100) false ['d'] ['i']
        (initialUsageData ['c']))) :=
  track_request_preserves_invariant ['g'] 5 (some 7) true ['d'] ['i'] ['c']
    (track_request ['g'] 50 (some 100) false ['d'] ['i']
      (initialUsageData ['c']))
    (by decide)

/-! ## C6: same-day usage aggregation -/

/-- One `track_request` call of a same-day call sequence. -/
structure TrackCall where
  model : List Char
  prompt_tokens : Nat
  completion_tokens : Option Nat
  success : Bool

/-- A sequence of `track_request` calls on the same day. -/
def trackSeq (today nowIso : List Char) (calls : List TrackCall)
    (d : UsageData) : UsageData :=
  calls.foldl
    (fun acc c =>
      track_request c.model c.prompt_tokens c.completion_tokens c.success
        today nowIso acc) d

/-- The tokens one call contributes: prompt plus completion, 0 when absent. -/
def callTokens (c : TrackCall) : Nat :=
  c.prompt_tokens + c.completion_tokens.getD 0

/-- Totals after a call sequence. -/
theorem trackSeq_totals (today nowIso : List Char) (calls : List TrackCall)
    (d : UsageData) :
    (trackSeq today nowIso calls d).total_requests =
      d.total_requests + calls.length ∧
    (trackSeq today nowIso calls d).total_tokens =
      d.total_tokens + (calls.map callTokens).sum := by
  induction calls generalizing d with
  | nil => simp [trackSeq]
  | cons c rest ih =>
    have hstep : trackSeq today nowIso (c :: rest) d =
        trackSeq today nowIso rest
          (track_request c.model c.prompt_tokens c.completion_tokens c.success
            today nowIso d) := rfl
    rw [hstep]
    obtain ⟨ih1, ih2⟩ := ih (track_request c.model c.prompt_tokens
      c.completion_tokens c.success today nowIso d)
    constructor
    · rw [ih1]
      simp only [track_request, List.length_cons]
      omega
    · rw [ih2]
      simp only [track_request, List.map_cons, List.sum_cons, callTokens]
      omega

/-- C6: starting from the fresh store, a same-day call sequence yields
`total_requests` equal to the call count and `total_tokens` equal to the sum
of prompt plus completion tokens (0 when absent); and the spec's two-call
example yields totals (2, 180) with today's bucket
(requests 2, tokens 180, 1 success, 1 failure). -/
theorem usage_aggregation_same_day (today nowIso created : List Char)
    (calls : List TrackCall) :
    (trackSeq today nowIso calls (initialUsageData created)).total_requests =
      calls.length ∧
    (trackSeq today nowIso calls (initialUsageData created)).total_tokens =
      (calls.map callTokens).sum ∧
    trackSeq ['d'] ['i']
        [⟨['g', 'p', 't', '-', 'x'], 50, some 100, true⟩,
          ⟨['g', 'p', 't', '-', 'x'], 30, none, false⟩]
        (initialUsageData ['c']) =
      ⟨2, 180,
        [(['d'], ⟨2, 180, 1, 1, [(['g', 'p', 't', '-', 'x'], ⟨2, 180⟩)]⟩)],
        ['i']⟩ := by
  obtain ⟨h1, h2⟩ := trackSeq_totals today nowIso calls (initialUsageData created)
  refine ⟨?_, ?_, ?_⟩
  · rw [h1]
    simp [initialUsageData]
  · rw [h2]
    simp [initialUsageData]
  · rfl

/-! ## C7: failure path of generate_text -/

/-- C7 (counterexample): the re-raised error is not byte-for-byte the
original error — the handler re-raises the same class with the message
wrapped in a classification-specific text.  Here an authentication failure
with message `"b"` propagates with the wrapped message, which differs from
`"b"`. -/
theorem generate_text_message_decorated :
    (generate_text (fun s => s) 86400 false true
        (Except.error ⟨ErrorKind.authentication, ['b']⟩)
        ['s'] ['u'] ['m'] ['t'] ['k'] 0 ['d'] ['i'] []
        ⟨some (initialUsageData ['c']), true⟩).1 =
      Except.error
        ⟨ErrorKind.authentication,
          "Invalid API key or unauthorized access: ".data ++ ['b']⟩ ∧
    "Invalid API key or unauthorized access: ".data ++ ['b'] ≠ ['b'] :=
  ⟨rfl, by decide⟩

/-- C7 (amended): whenever the generation call fails with a classified error
(and the cache lookup did not already return a truthy hit), `generate_text`
records exactly one usage event — success `false`, token count the character
length of the system prompt plus that of the user prompt — leaves the cache
directory untouched, and propagates an error of the same classification whose
message is the original wrapped in a classification-specific text. -/
theorem generate_text_failure_single_track (h : List Char → List Char)
    (ttl : Int) (use_cache : Bool) (e : GenError)
    (sp up model temp mk : List Char) (now : Int) (today nowIso : List Char)
    (cstore : CacheStore) (tf : TrackerFile)
    (hmiss : truthyText (if use_cache then
        (ResponseCache.get h ttl now model sp up temp mk cstore).1
      else none) = false) :
    generate_text h ttl use_cache true (Except.error e) sp up model temp mk
        now today nowIso cstore tf =
      (Except.error ⟨e.kind, errorWrapText e.kind ++ e.msg⟩, cstore,
        trackRequestOnFile model (sp.length + up.length) none false today
          nowIso tf) := by
  unfold generate_text
  simp [hmiss, decorateError]

/-- Witness for C7's amended theorem: caching disabled, an authentication
failure, a fresh usage file. -/
theorem generate_text_failure_single_track_witness :
    generate_text (fun s => s) 86400 false true
        (Except.error ⟨ErrorKind.authentication, ['b']⟩)
        ['s'] ['u'] ['m'] ['t'] ['k'] 0 ['d'] ['i'] []
        ⟨some (initialUsageData ['c']), true⟩ =
      (Except.error
          ⟨ErrorKind.authentication,
            errorWrapText ErrorKind.authentication ++ ['b']⟩, [],
        trackRequestOnFile ['m'] ((['s'] : List Char).length +
          (['u'] : List Char).length) none false ['d'] ['i']
          ⟨some (initialUsageData ['c']), true⟩) :=
  generate_text_failure_single_track (fun s => s) 86400 false
    ⟨ErrorKind.authentication, ['b']⟩ ['s'] ['u'] ['m'] ['t'] ['k'] 0 ['d']
    ['i'] [] ⟨some (initialUsageData ['c']), true⟩ rfl

/-! ## C8: storage failures never raise -/

/-- C8: a usage file that cannot be read or parsed makes `track_request`
return normally with the file unchanged and makes `get_usage_summary` return
`None`; a file that cannot be rewritten also makes `track_request` return
normally; and a cache entry that cannot be parsed makes `get` return `None`
with the directory unchanged.  All the embedded operations are total: no
storage failure propagates as an exception. -/
theorem storage_failures_do_not_raise
    (model : List Char) (pt : Nat) (ct : Option Nat) (success : Bool)
    (today nowIso : List Char) (tf : TrackerFile)
    (h : List Char → List Char) (ttl now : Int)
    (m2 sp up temp mk : List Char) (store : CacheStore) :
    (tf.content = none →
      trackRequestOnFile model pt ct success today nowIso tf = tf ∧
      get_usage_summary tf = none) ∧
    (tf.writable = false →
      trackRequestOnFile model pt ct success today nowIso tf = tf) ∧
    (lookupFile (getCacheKey h m2 sp up temp mk) store =
        some CacheFile.corrupt →
      ResponseCache.get h ttl now m2 sp up temp mk store = (none, store)) := by
  refine ⟨?_, ?_, ?_⟩
  · intro hc
    exact ⟨by simp [trackRequestOnFile, hc], by simp [get_usage_summary, hc]⟩
  · intro hw
    unfold trackRequestOnFile
    cases hcon : tf.content with
    | none => rfl
    | some d => simp [hw]
  · intro hl
    unfold ResponseCache.get
    simp [hl]

/-- Witness for C8: an unreadable usage file, an unwritable usage file, and a
one-entry cache directory whose entry is unparsable. -/
theorem storage_failures_do_not_raise_witness :
    (trackRequestOnFile ['g'] 5 none true ['d'] ['i'] ⟨none, true⟩ =
        ⟨none, true⟩ ∧
      get_usage_summary ⟨none, true⟩ = none) ∧
    trackRequestOnFile ['g'] 5 none true ['d'] ['i']
        ⟨some (initialUsageData ['c']), false⟩ =
      ⟨some (initialUsageData ['c']), false⟩ ∧
    ResponseCache.get (fun s => s) 86400 0 ['m'] ['s'] ['u'] ['t'] ['k']
        [(getCacheKey (fun s => s) ['m'] ['s'] ['u'] ['t'] ['k'],
          CacheFile.corrupt)] =
      (none,
        [(getCacheKey (fun s => s) ['m'] ['s'] ['u'] ['t'] ['k'],
          CacheFile.corrupt)]) :=
  ⟨(storage_failures_do_not_raise ['g'] 5 none true ['d'] ['i'] ⟨none, true⟩
      (fun s => s) 86400 0 ['m'] ['s'] ['u'] ['t'] ['k'] []).1 rfl,
    (storage_failures_do_not_raise ['g'] 5 none true ['d'] ['i']
      ⟨some (initialUsageData ['c']), false⟩ (fun s => s) 86400 0 ['m'] ['s']
      ['u'] ['t'] ['k'] []).2.1 rfl,
    (storage_failures_do_not_raise ['g'] 5 none true ['d'] ['i'] ⟨none, true⟩
      (fun s => s) 86400 0 ['m'] ['s'] ['u'] ['t'] ['k']
      [(getCacheKey (fun s => s) ['m'] ['s'] ['u'] ['t'] ['k'],
        CacheFile.corrupt)]).2.2 (by simp [lookupFile])⟩

end OpenAITest
